import Mathlib

/-!
Verification of the stock-analysis option tooling: a shallow embedding of
the decision-engine core (cash-secured-put and covered-call filter
pipelines, probability model, factor scoring, position-health decision
procedure, roll-candidate search) together with proofs of the behavioural
properties stated in the specification.

Monetary quantities, prices and percentages are embedded as rationals
(`ℚ`); the closed-form probability model, which is genuinely
transcendental (log / sqrt / normal CDF), is embedded over `ℝ`.
A pandas `NaN` cell is embedded as `Option.none`.
-/

namespace StockAnalysis

/-- Python's `int()` applied to a rational: truncation toward zero
(`int(1.7) = 1`, `int(-1.7) = -1`). -/
def pyInt (q : ℚ) : ℤ := if 0 ≤ q then ⌊q⌋ else -⌊-q⌋

/-- Embeds `pd.notna(x) and x > 0`, for a cell that may be `NaN` (`none`). -/
def notnaPos : Option ℚ → Bool
  | some x => decide (0 < x)
  | none => false

/-- One row of the raw option table handed to the strategy analyzers.
`days_to_expiration` and `prob_otm` are the enrichment outputs of
`GreeksCalculator.enrich_option_data` (`calculate_days_to_expiration`
reads the wall clock and `prob_otm` comes from the transcendental
probability model embedded separately below), so they are carried as
input fields of the enriched table here. -/
structure OptionRow where
  ticker : String
  option_type : String
  current_stock_price : ℚ
  strike : ℚ
  days_to_expiration : ℤ
  bid : Option ℚ
  ask : Option ℚ
  lastPrice : Option ℚ
  volume : ℚ
  delta : ℚ
  prob_otm : ℚ
  deriving DecidableEq, Repr

/-- Embeds the row function of `CashSecuredPutAnalyzer._calculate_effective_price`,
`get_price`: bid, else lastPrice, else ask/2, else 0, tagged with the
source. -/
def get_price (bid lastPrice ask : Option ℚ) : ℚ × String :=
  if notnaPos bid then (bid.getD 0, "bid")
  else if notnaPos lastPrice then (lastPrice.getD 0, "lastPrice")
  else if notnaPos ask then (ask.getD 0 * 0.5, "ask/2")
  else (0, "none")

/-- Embeds `GreeksCalculator.calculate_annualized_return`. -/
def calculate_annualized_return (premium capital : ℚ) (days : ℤ) : ℚ :=
  if capital ≤ 0 ∨ days ≤ 0 then 0
  else (premium / capital) * 365 / days * 100

/-- Embeds `GreeksCalculator.calculate_monthly_return`. -/
def calculate_monthly_return (premium capital : ℚ) (days : ℤ) : ℚ :=
  if capital ≤ 0 ∨ days ≤ 0 then 0
  else (premium / capital) * 30 / days * 100

/-- Keyword arguments of `analyze_cash_secured_puts`; `none` models a
Python `None` default. -/
structure CSPParams where
  min_premium : ℚ := 0.5
  min_annual_return : ℚ := 10.0
  min_days : ℤ := 0
  max_days : ℤ := 60
  min_prob_otm : Option ℚ := none
  min_volume : Option ℚ := none
  quality_tickers : Option (List String) := none
  min_delta : Option ℚ := none
  max_delta : Option ℚ := none
  available_cash : Option ℚ := none
  max_cash_per_position : Option ℚ := none
  deriving Repr

/-- An output row of `analyze_cash_secured_puts`: the input row plus the
columns the analyzer adds.  The cash-sizing columns exist only when
`available_cash` was supplied, hence `Option`. -/
structure CSPRow where
  row : OptionRow
  effective_price : ℚ
  price_source : String
  capital_required : ℚ
  premium_received : ℚ
  net_purchase_price : ℚ
  discount_from_current : ℚ
  income_return : ℚ
  annual_return : ℚ
  monthly_return : ℚ
  cash_per_contract : Option ℚ
  max_affordable_contracts : Option ℤ
  total_capital_required : Option ℚ
  total_premium_received : Option ℚ
  cushion : ℚ
  risk_reward_score : ℚ
  deriving DecidableEq, Repr

/-- Stage (a)-(c) of `analyze_cash_secured_puts`: keep puts, attach the
effective price, apply the optional quality-ticker allow-list and the
boolean-mask filters (DTE window, minimum premium, optional minimum
volume). -/
def csp_filtered (p : CSPParams) (rows : List OptionRow) : List (OptionRow × ℚ × String) :=
  let puts := rows.filter (fun r => r.option_type == "put")
  let puts := puts.map (fun r => (r, get_price r.bid r.lastPrice r.ask))
  let puts := match p.quality_tickers with
    | some qt => puts.filter (fun (r : OptionRow × ℚ × String) => qt.contains r.1.ticker)
    | none => puts
  puts.filter (fun r =>
    decide (r.1.days_to_expiration ≤ p.max_days) &&
    decide (p.min_days ≤ r.1.days_to_expiration) &&
    decide (p.min_premium ≤ r.2.1) &&
    (match p.min_volume with
     | some mv => decide (mv ≤ r.1.volume)
     | none => true))

/-- The per-row economics of stage (d) of `analyze_cash_secured_puts`.
The source's own comment reads `Capital required = strike price * 100
(cash to secure)`, but the assignment is
`filtered['capital_required'] = filtered['strike']` — the per-share
strike with no `* 100`. -/
def csp_metrics_row (r : OptionRow × ℚ × String) : CSPRow :=
  let premium := r.2.1
  let capital := r.1.strike
  { row := r.1
    effective_price := r.2.1
    price_source := r.2.2
    capital_required := capital
    premium_received := premium
    net_purchase_price := r.1.strike - premium
    discount_from_current :=
      (r.1.current_stock_price - (r.1.strike - premium)) / r.1.current_stock_price * 100
    income_return := premium / r.1.strike * 100
    annual_return := calculate_annualized_return premium capital r.1.days_to_expiration
    monthly_return := calculate_monthly_return premium capital r.1.days_to_expiration
    cash_per_contract := none
    max_affordable_contracts := none
    total_capital_required := none
    total_premium_received := none
    cushion := 0
    risk_reward_score := 0 }

/-- Stage (d)-(e): compute the CSP economics columns, then apply the
annualized-return floor and the optional delta and probability-OTM
filters. -/
def csp_metrics (p : CSPParams) (l : List (OptionRow × ℚ × String)) : List CSPRow :=
  let withMetrics := l.map csp_metrics_row
  let afterReturn := withMetrics.filter (fun r => decide (p.min_annual_return ≤ r.annual_return))
  let afterMinDelta := match p.min_delta with
    | some d => afterReturn.filter (fun r => decide (d ≤ r.row.delta))
    | none => afterReturn
  let afterMaxDelta := match p.max_delta with
    | some d => afterMinDelta.filter (fun r => decide (r.row.delta ≤ d))
    | none => afterMinDelta
  match p.min_prob_otm with
  | some mp => afterMaxDelta.filter (fun r => decide (mp ≤ r.row.prob_otm))
  | none => afterMaxDelta

/-- Stage (f): the affordable-capital filter.  When `available_cash` is
supplied, the per-position budget is `max_cash_per_position` when that is
supplied and `available_cash` otherwise; rows affording zero contracts
(`int(budget / (strike*100)) < 1`) are dropped and the sizing columns are
attached to the survivors. -/
def csp_cash_row (budget : ℚ) (r : CSPRow) : CSPRow :=
  let cpc := r.row.strike * 100
  let mac := pyInt (budget / cpc)
  { r with
    cash_per_contract := some cpc
    max_affordable_contracts := some mac
    total_capital_required := some (cpc * mac)
    total_premium_received := some (r.premium_received * mac * 100) }

def csp_cash_stage (available_cash max_cash_per_position : Option ℚ) (l : List CSPRow) : List CSPRow :=
  match available_cash with
  | none => l
  | some cash =>
    let budget := match max_cash_per_position with
      | some m => m
      | none => cash
    (l.map (csp_cash_row budget)).filter
      (fun r => decide (1 ≤ r.max_affordable_contracts.getD 0))

/-- Insert into a sorted list (helper for `sortValues`). -/
def insertSorted (le : α → α → Bool) (x : α) : List α → List α
  | [] => [x]
  | y :: ys => if le x y then x :: y :: ys else y :: insertSorted le x ys

/-- Embeds `DataFrame.sort_values`: an insertion sort by the given
comparison (the claims below depend only on the membership and length of
the sorted output, never on the particular sorting algorithm or on tie
order, which pandas' default quicksort leaves unspecified anyway). -/
def sortValues (le : α → α → Bool) : List α → List α
  | [] => []
  | x :: xs => insertSorted le x (sortValues le xs)

def csp_score_row (r : CSPRow) : CSPRow :=
  { r with
    cushion := r.net_purchase_price / r.row.current_stock_price * 100 - 100
    risk_reward_score := r.annual_return * r.row.prob_otm / 100 }

/-- Stage (g): cushion and risk-reward score, then rank by the score
(descending). -/
def csp_rank (l : List CSPRow) : List CSPRow :=
  sortValues (fun a b => decide (b.risk_reward_score ≤ a.risk_reward_score))
    (l.map csp_score_row)

/-- Embeds `CashSecuredPutAnalyzer.analyze_cash_secured_puts`, as the composite
of its stages. -/
def analyze_cash_secured_puts (p : CSPParams) (rows : List OptionRow) : List CSPRow :=
  csp_rank (csp_cash_stage p.available_cash p.max_cash_per_position
    (csp_metrics p (csp_filtered p rows)))

/-! ## Covered-call analyzer (`src/strategies/covered_call.py`) -/

/-- Keyword arguments of `analyze_covered_calls`. -/
structure CCParams where
  min_premium : ℚ := 0.5
  min_annual_return : ℚ := 10.0
  max_days : ℤ := 60
  min_delta : Option ℚ := none
  max_delta : Option ℚ := none
  deriving Repr

/-- An output row of `analyze_covered_calls`.  The metrics are computed
only for rows whose effective price passed the `≥ min_premium` mask, so
they are never `NaN` and are carried as plain rationals. -/
structure CCRow where
  row : OptionRow
  price_source : String
  effective_price : ℚ
  capital_required : ℚ
  premium_received : ℚ
  max_profit : ℚ
  max_profit_pct : ℚ
  income_return : ℚ
  annual_return : ℚ
  monthly_return : ℚ
  downside_protection : ℚ
  breakeven_price : ℚ
  breakeven_pct : ℚ
  risk_reward_score : ℚ
  deriving DecidableEq, Repr

/-- The spot price the covered-call analyzer bands strikes against:
`calls['current_stock_price'].iloc[0] if len(calls) > 0 else 0` — the
first row of the call-filtered table, whichever ticker it belongs to. -/
def cc_first_spot (calls : List OptionRow) : ℚ :=
  ((calls.head?).map (fun r => r.current_stock_price)).getD 0

/-- The silent strike band of `analyze_covered_calls`: when the first
row's spot is positive, keep only strikes in
`[0.95 × spot, 1.5 × spot]`, the same `spot` for every row. -/
def cc_band (calls : List OptionRow) : List OptionRow :=
  let current_price := cc_first_spot calls
  if 0 < current_price then
    calls.filter (fun r =>
      decide (current_price * 0.95 ≤ r.strike) && decide (r.strike ≤ current_price * 1.5))
  else calls

/-- Covered-call effective price: `bid` when `bid > 0`, else
`lastPrice` (which may itself be `NaN`, hence `Option`). -/
def cc_price (r : OptionRow) : OptionRow × Option ℚ × String :=
  if notnaPos r.bid then (r, r.bid, "bid") else (r, r.lastPrice, "lastPrice")

/-- Covered-call economics for a row that survived the premium mask
(`capital_required = current_stock_price`, the per-share spot). -/
def cc_metrics_row (r : OptionRow × Option ℚ × String) : CCRow :=
  let premium := (r.2.1).getD 0
  let capital := r.1.current_stock_price
  { row := r.1
    price_source := r.2.2
    effective_price := premium
    capital_required := capital
    premium_received := premium
    max_profit := (r.1.strike - r.1.current_stock_price) + premium
    max_profit_pct := ((r.1.strike - r.1.current_stock_price) + premium) / r.1.current_stock_price * 100
    income_return := premium / r.1.current_stock_price * 100
    annual_return := calculate_annualized_return premium capital r.1.days_to_expiration
    monthly_return := calculate_monthly_return premium capital r.1.days_to_expiration
    downside_protection := 0
    breakeven_price := 0
    breakeven_pct := 0
    risk_reward_score := 0 }

/-- The columns added after the delta filters: downside protection,
breakeven and the risk-reward score. -/
def cc_final_row (r : CCRow) : CCRow :=
  { r with
    downside_protection := r.premium_received / r.row.current_stock_price * 100
    breakeven_price := r.row.current_stock_price - r.premium_received
    breakeven_pct := ((r.row.current_stock_price - r.premium_received) - r.row.current_stock_price) /
      r.row.current_stock_price * 100
    risk_reward_score := r.annual_return * r.row.prob_otm / 100 }

/-- Embeds `CoveredCallAnalyzer.analyze_covered_calls`: keep calls, band the
strikes against the first call row's spot, compute the effective price,
apply the DTE/premium masks, compute the economics, apply the
annualized-return floor and the optional delta filters, attach the final
columns and rank by risk-reward score. -/
def analyze_covered_calls (p : CCParams) (rows : List OptionRow) : List CCRow :=
  let calls := rows.filter (fun r => r.option_type == "call")
  let banded := cc_band calls
  let priced := banded.map cc_price
  let filtered := priced.filter (fun r =>
    decide (r.1.days_to_expiration ≤ p.max_days) &&
    decide (0 < r.1.days_to_expiration) &&
    (match r.2.1 with
     | some e => decide (p.min_premium ≤ e)
     | none => false))
  let withMetrics := filtered.map cc_metrics_row
  let afterReturn := withMetrics.filter (fun r => decide (p.min_annual_return ≤ r.annual_return))
  let afterMinDelta := match p.min_delta with
    | some d => afterReturn.filter (fun (r : CCRow) => decide (d ≤ r.row.delta))
    | none => afterReturn
  let afterMaxDelta := match p.max_delta with
    | some d => afterMinDelta.filter (fun (r : CCRow) => decide (r.row.delta ≤ d))
    | none => afterMinDelta
  sortValues (fun a b => decide (b.risk_reward_score ≤ a.risk_reward_score))
    (afterMaxDelta.map cc_final_row)

/-! ## Position health engine (`src/portfolio/position_analyzer.py`) -/

/-- Embeds `POSITION_ANALYSIS_SETTINGS['profit_taking_rules']` (the analyzer's
fallback defaults, which are in force because `config.py` defines no
`POSITION_ANALYSIS_SETTINGS`). -/
structure ProfitTakingRules where
  aggressive_target_pct : ℚ := 75
  standard_target_pct : ℚ := 50
  conservative_target_pct : ℚ := 30
  stop_loss_pct : ℚ := -50
  force_close_dte : ℤ := 21
  min_hold_days : ℤ := 7
  deriving Repr

/-- Embeds `POSITION_ANALYSIS_SETTINGS['risk_thresholds']`. -/
structure RiskThresholds where
  min_prob_otm_warning : ℚ := 45
  max_iv_change_pct : ℚ := 30
  earnings_warning_days : ℤ := 14
  technical_score_drop : ℚ := 15
  deriving Repr

structure PositionAnalysisSettings where
  profit_taking_rules : ProfitTakingRules := {}
  risk_thresholds : RiskThresholds := {}
  deriving Repr

/-- Embeds `PositionAnalyzer._determine_moneyness`: within 2% of the strike is
`"ATM"`; otherwise puts are `"ITM"` below the strike and calls above it. -/
def determine_moneyness (option_type : String) (strike current_price : ℚ) : String :=
  let distance_pct := |current_price - strike| / strike * 100
  if distance_pct < 2 then "ATM"
  else if option_type == "put" then
    if current_price < strike then "ITM" else "OTM"
  else
    if strike < current_price then "ITM" else "OTM"

/-- Which `return` site of `_determine_action` produced the
recommendation.  The source distinguishes the sites by their
`primary_reason` f-strings; the embedded result carries this tag instead
of the formatted reason text (the numeric interpolation of the reason
strings is rendering, not decision logic). -/
inductive DecisionBranch
  | itm_assignment
  | aggressive_profit
  | standard_profit
  | prob_warning
  | roll_dte
  | adjust_targets
  | hold
  deriving DecidableEq, Repr

/-- Embeds `PositionAnalyzer._determine_action`: the strictly ordered decision
procedure, returning `(action, urgency, branch)`. -/
def determine_action (settings : PositionAnalysisSettings)
    (pnl_pct prob_otm prob_change tech_change : ℚ)
    (moneyness : String) (days_remaining : ℤ) : String × ℕ × DecisionBranch :=
  let pr := settings.profit_taking_rules
  if moneyness = "ITM" ∧ days_remaining < 7 then
    ("CLOSE_EARLY", 5, .itm_assignment)
  else if pr.aggressive_target_pct ≤ pnl_pct then
    ("CLOSE_EARLY", 4, .aggressive_profit)
  else if pr.standard_target_pct ≤ pnl_pct ∧ days_remaining ≤ pr.force_close_dte then
    ("CLOSE_EARLY", 3, .standard_profit)
  else if prob_otm < settings.risk_thresholds.min_prob_otm_warning then
    ("CLOSE_EARLY", 5, .prob_warning)
  else if days_remaining ≤ pr.force_close_dte ∧ pnl_pct < pr.standard_target_pct then
    ("ROLL", 3, .roll_dte)
  else if 15 < |prob_change| ∨ 15 < |tech_change| then
    ("ADJUST_TARGETS", 2, .adjust_targets)
  else
    ("HOLD", 1, .hold)

/-! ## Enhanced probability (`src/analysis/enhanced_probability.py`) -/

/-- Python truthiness of an optional float: `None` and `0.0` are falsy. -/
def pyTruthy : Option ℚ → Bool
  | some v => decide (v ≠ 0)
  | none => false

/-- The weighted composite score of
`calculate_enhanced_probability` (35% technical, 25% fundamental,
20% sentiment, 20% event risk). -/
def composite_score (technical fundamental sentiment event_risk : ℚ) : ℚ :=
  technical * 0.35 + fundamental * 0.25 + sentiment * 0.20 + event_risk * 0.20

/-- Embeds `adjustment_pct = ((composite_score - 50) / 50) * 15`. -/
def adjustment_pct (composite : ℚ) : ℚ :=
  (composite - 50) / 50 * 15

/-- The probability fields of the dictionary returned by
`calculate_enhanced_probability` (data-quality/confidence and the echoed
ticker data are dropped).  `composite_score` is absent from the
no-ticker-data dictionary, hence `Option`. -/
structure EnhancedProbResult where
  enhanced_prob_otm : Option ℚ
  black_scholes_prob_otm : Option ℚ
  adjustment : ℚ
  composite_score : Option ℚ
  technical_score : ℚ
  fundamental_score : ℚ
  sentiment_score : ℚ
  event_risk_score : ℚ
  deriving DecidableEq, Repr

/-- Embeds `EnhancedProbabilityAnalyzer.calculate_enhanced_probability`, score
combination part.  `has_ticker_data` models `get_stock_data(ticker)`
returning a non-empty dict, and the four sub-scores are the outputs of
the `calculate_*_score` helpers on that data (they are external inputs
here: they depend on fetched market data).  Note `if black_scholes_prob:`
is Python truthiness — `None` and `0.0` both take the `else` branch. -/
def calculate_enhanced_probability (has_ticker_data : Bool)
    (technical fundamental sentiment event_risk : ℚ)
    (black_scholes_prob : Option ℚ) : EnhancedProbResult :=
  if !has_ticker_data then
    { enhanced_prob_otm := black_scholes_prob
      black_scholes_prob_otm := black_scholes_prob
      adjustment := 0
      composite_score := none
      technical_score := 50
      fundamental_score := 50
      sentiment_score := 50
      event_risk_score := 50 }
  else
    let comp := composite_score technical fundamental sentiment event_risk
    let adj := adjustment_pct comp
    let enhanced :=
      if pyTruthy black_scholes_prob then
        some (max 0 (min 100 (black_scholes_prob.getD 0 + adj)))
      else none
    { enhanced_prob_otm := enhanced
      black_scholes_prob_otm := black_scholes_prob
      adjustment := adj
      composite_score := some comp
      technical_score := technical
      fundamental_score := fundamental
      sentiment_score := sentiment
      event_risk_score := event_risk }

/-! ## Roll optimizer (`src/strategies/rolling_optimizer.py`) -/

/-- A row of a fetched, enriched option chain examined by the roll
search. -/
structure RollOption where
  option_type : String
  strike : ℚ
  bid : ℚ
  lastPrice : ℚ
  days_to_expiration : ℤ
  prob_otm : ℚ
  deriving DecidableEq, Repr

/-- One future expiration together with its fetched chain.
`time_extended` models `(new_exp_date - current_exp_date).days > 7`
(computed in `_classify_roll_type` by date parsing, `True` on a parse
failure). -/
structure RollChain where
  expiration : String
  time_extended : Bool
  options : List RollOption
  deriving DecidableEq, Repr

/-- A roll candidate dictionary (the `reasoning` rendering string is
dropped). -/
structure RollCandidate where
  current_strike : ℚ
  current_expiration : String
  close_cost : ℚ
  new_strike : ℚ
  new_expiration : String
  new_premium : ℚ
  new_days_to_expiration : ℤ
  net_credit : ℚ
  roll_type : String
  new_annual_return : ℚ
  new_prob_otm : ℚ
  improvement_score : ℚ
  deriving DecidableEq, Repr

/-- Embeds `RollingOpportunityFinder._classify_roll_type`. -/
def classify_roll_type (current_strike new_strike : ℚ) (time_extended : Bool)
    (option_type : String) : String :=
  let strike_diff := (new_strike - current_strike) / current_strike
  if |strike_diff| < 0.02 then
    if time_extended then "roll_out" else "roll_same"
  else if option_type == "put" then
    if new_strike < current_strike then
      if time_extended then "roll_out_and_down" else "roll_down"
    else
      if time_extended then "roll_out_and_up" else "roll_up"
  else
    if current_strike < new_strike then
      if time_extended then "roll_out_and_up" else "roll_up"
    else
      if time_extended then "roll_out_and_down" else "roll_down"

/-- The `roll_type_scores` lookup of `_calculate_improvement_score`
(`dict.get(roll_type, 5)`). -/
def roll_type_score (roll_type : String) : ℚ :=
  if roll_type == "roll_out_and_down" then 10
  else if roll_type == "roll_out" then 9
  else if roll_type == "roll_down" then 8
  else if roll_type == "roll_out_and_up" then 7
  else if roll_type == "roll_up" then 5
  else if roll_type == "roll_same" then 6
  else 5

/-- Embeds `RollingOpportunityFinder._calculate_improvement_score` (its
`new_days` argument is unused by the source computation too). -/
def calculate_improvement_score (net_credit new_annual_return new_prob_otm : ℚ)
    (_new_days : ℤ) (roll_type : String) : ℚ :=
  let credit_score := min 40 (net_credit / 1.5 * 40)
  let return_score :=
    if 40 ≤ new_annual_return then (30 : ℚ)
    else if 30 ≤ new_annual_return then 25
    else if 20 ≤ new_annual_return then 20
    else new_annual_return / 20 * 20
  let prob_score := new_prob_otm / 100 * 20
  min 100 (credit_score + return_score + prob_score + roll_type_score roll_type)

/-- Embeds the `new_premium` local of `find_roll_opportunities`:
`option.get('bid', 0)`, falling back to `lastPrice` when non-positive. -/
def roll_new_premium (opt : RollOption) : ℚ :=
  if opt.bid ≤ 0 then opt.lastPrice else opt.bid

/-- Embeds the `new_annual_return` local of `find_roll_opportunities`:
`(new_premium / new_strike) * (365 / new_days) * 100` for positive
strike and days, else 0. -/
def roll_new_annual_return (opt : RollOption) : ℚ :=
  if 0 < opt.strike ∧ 0 < opt.days_to_expiration then
    roll_new_premium opt / opt.strike * (365 / (opt.days_to_expiration : ℚ)) * 100
  else 0

/-- The candidate dictionary `find_roll_opportunities` appends for one
accepted chain row. -/
def mk_roll_candidate (option_type : String) (current_strike : ℚ)
    (current_expiration : String) (close_cost : ℚ) (new_expiration : String)
    (time_extended : Bool) (opt : RollOption) : RollCandidate :=
  { current_strike := current_strike
    current_expiration := current_expiration
    close_cost := close_cost
    new_strike := opt.strike
    new_expiration := new_expiration
    new_premium := roll_new_premium opt
    new_days_to_expiration := opt.days_to_expiration
    net_credit := roll_new_premium opt - close_cost
    roll_type := classify_roll_type current_strike opt.strike time_extended option_type
    new_annual_return := roll_new_annual_return opt
    new_prob_otm := opt.prob_otm
    improvement_score :=
      calculate_improvement_score (roll_new_premium opt - close_cost)
        (roll_new_annual_return opt) opt.prob_otm opt.days_to_expiration
        (classify_roll_type current_strike opt.strike time_extended option_type) }

/-- The inner loop body of `find_roll_opportunities` for one chain row:
the strike band (`continue` on a put strike more than 5% above the
current strike, resp. a call strike more than 5% below), the premium
fallback (`bid`, else `lastPrice`, reject non-positive), the
minimum-credit floor, and the candidate construction. -/
def evaluate_roll_option (option_type : String) (current_strike : ℚ)
    (current_expiration : String) (close_cost min_credit : ℚ)
    (new_expiration : String) (time_extended : Bool)
    (opt : RollOption) : Option RollCandidate :=
  if option_type == "put" ∧ current_strike * 1.05 < opt.strike then none
  else if ¬(option_type == "put") ∧ opt.strike < current_strike * 0.95 then none
  else if roll_new_premium opt ≤ 0 then none
  else if roll_new_premium opt - close_cost < min_credit then none
  else some (mk_roll_candidate option_type current_strike current_expiration
    close_cost new_expiration time_extended opt)

/-- Embeds `min_credit = min_credit or self.roll_criteria['min_net_credit']`:
Python `or` falls back to the configured floor when the argument is
`None` or `0.0`. -/
def resolve_min_credit (min_credit : Option ℚ) (config_min_net_credit : ℚ) : ℚ :=
  match min_credit with
  | some c => if c = 0 then config_min_net_credit else c
  | none => config_min_net_credit

/-- Embeds `RollingOpportunityFinder.find_roll_opportunities`: over the first 6
future expirations, filter each fetched chain to the position's option
type, evaluate every row, then sort the candidates by improvement score
(descending) and return the top `max_candidates`.  `future_chains` is
the already-fetched list of strictly later expirations with their
chains (fetching is an external collaborator). -/
def find_roll_opportunities (option_type : String) (current_strike : ℚ)
    (current_expiration : String) (close_cost min_credit : ℚ)
    (max_candidates : ℕ) (future_chains : List RollChain) : List RollCandidate :=
  let candidates := (future_chains.take 6).flatMap (fun ch =>
    (ch.options.filter (fun o => o.option_type == option_type)).filterMap
      (evaluate_roll_option option_type current_strike current_expiration
        close_cost min_credit ch.expiration ch.time_extended))
  (sortValues (fun a b => decide (b.improvement_score ≤ a.improvement_score))
    candidates).take max_candidates

/-! ## Probability model (`src/data/greeks_calculator.py`)

`calculate_probability_otm` is genuinely transcendental (log, sqrt,
normal CDF), so it is embedded over `ℝ`. -/

/-- Embeds `scipy.stats.norm.cdf`: the standard normal cumulative distribution
function, `Φ(x) = (∫_{-∞}^{x} e^{-t²/2} dt) / √(2π)`. -/
noncomputable def normalCDF (x : ℝ) : ℝ :=
  (∫ t in Set.Iic x, Real.exp (-t ^ 2 / 2)) / Real.sqrt (2 * Real.pi)

/-- Embeds the `effective_iv` local of `calculate_probability_otm`: an
implied volatility below 10% is replaced by the fixed 45% fallback. -/
noncomputable def effective_iv (implied_vol : ℝ) : ℝ :=
  if implied_vol < 0.10 then 0.45 else implied_vol

/-- Embeds the `time_to_expiration` local of
`calculate_probability_otm`: `days / 365.0`. -/
noncomputable def time_to_expiration (days : ℤ) : ℝ := (days : ℝ) / 365.0

/-- Embeds the `d1` local of `calculate_probability_otm`:
`(ln(spot/strike) + 0.5·σ²·t) / (σ·√t)`. -/
noncomputable def d1_term (current_price strike iv t : ℝ) : ℝ :=
  (Real.log (current_price / strike) + 0.5 * iv ^ 2 * t) / (iv * Real.sqrt t)

/-- Embeds `GreeksCalculator.calculate_probability_otm`.  The first branch is
the `days <= 0` early return; the second (`strike = 0`) is the one
genuine exception path of the source body — the `ZeroDivisionError` of
`current_price / strike` — which the enclosing `try/except` turns into a
`0.0` return.  When the implied volatility is below 10% the fixed 45%
fallback is substituted before computing `d1`. -/
noncomputable def calculate_probability_otm (current_price strike implied_vol : ℝ)
    (days : ℤ) (option_type : String) : ℝ :=
  if days ≤ 0 then 0
  else if strike = 0 then 0
  else if option_type.toLower = "call" then
    normalCDF (-(d1_term current_price strike (effective_iv implied_vol)
      (time_to_expiration days))) * 100
  else
    normalCDF (d1_term current_price strike (effective_iv implied_vol)
      (time_to_expiration days)) * 100

/-! ## Concrete tables used by the end-to-end scenarios -/

/-- Scenario 4's option: a $200-strike put (spot $210, premium $2.00,
30 DTE). -/
def row200 : OptionRow :=
  { ticker := "TICK", option_type := "put", current_stock_price := 210,
    strike := 200, days_to_expiration := 30, bid := some 2, ask := some 3,
    lastPrice := some 2, volume := 100, delta := -(3/10), prob_otm := 70 }

/-- Scenario 4's analyzer arguments: `available_cash=$15,000`,
`max_cash_per_position=$20,000`. -/
def scenario4_params : CSPParams :=
  { available_cash := some 15000, max_cash_per_position := some 20000 }

/-- The single row `analyze_cash_secured_puts scenario4_params [row200]`
produces. -/
def row200_out : CSPRow :=
  { row := row200, effective_price := 2, price_source := "bid",
    capital_required := 200, premium_received := 2, net_purchase_price := 198,
    discount_from_current := 40/7, income_return := 1, annual_return := 73/6,
    monthly_return := 1, cash_per_contract := some 20000,
    max_affordable_contracts := some 1, total_capital_required := some 20000,
    total_premium_received := some 200, cushion := -(40/7),
    risk_reward_score := 511/60 }

/-- Scenario 1's option: a $95-strike put, spot $100, premium $1.00,
30 DTE. -/
def row95 : OptionRow :=
  { ticker := "TICK", option_type := "put", current_stock_price := 100,
    strike := 95, days_to_expiration := 30, bid := some 1, ask := some (11/10),
    lastPrice := some 1, volume := 100, delta := -(3/10), prob_otm := 70 }

/-- A call on ticker AAA at spot $100 (the first row of a two-ticker call
table). -/
def rowA : OptionRow :=
  { ticker := "AAA", option_type := "call", current_stock_price := 100,
    strike := 100, days_to_expiration := 30, bid := some 2, ask := some 3,
    lastPrice := some 2, volume := 100, delta := 1/2, prob_otm := 50 }

/-- A call on ticker BBB at spot $500 with strike $200 — only 40% of its
own spot, yet banded against AAA's $100 spot. -/
def rowB : OptionRow :=
  { ticker := "BBB", option_type := "call", current_stock_price := 500,
    strike := 200, days_to_expiration := 30, bid := some 2, ask := some 3,
    lastPrice := some 2, volume := 100, delta := 1/2, prob_otm := 50 }

/-- The single row `analyze_covered_calls {} [rowA, rowB]` produces. -/
def rowA_out : CCRow :=
  { row := rowA, price_source := "bid", effective_price := 2,
    capital_required := 100, premium_received := 2, max_profit := 2,
    max_profit_pct := 2, income_return := 2, annual_return := 73/3,
    monthly_return := 2, downside_protection := 2, breakeven_price := 98,
    breakeven_pct := -2, risk_reward_score := 73/6 }

/-- One future expiration with a single $100-strike put quote (bid
$2.00, 45 DTE). -/
def chain1 : RollChain :=
  { expiration := "2025-11-21", time_extended := true,
    options := [{ option_type := "put", strike := 100, bid := 2, lastPrice := 2,
                  days_to_expiration := 45, prob_otm := 70 }] }

/-- The roll candidate produced from `chain1` for a $100-strike put with
close cost $1.00 and credit floor $0.25. -/
def chain1_cand : RollCandidate :=
  { current_strike := 100, current_expiration := "2025-10-17", close_cost := 1,
    new_strike := 100, new_expiration := "2025-11-21", new_premium := 2,
    new_days_to_expiration := 45, net_credit := 1,
    roll_type := "roll_out", new_annual_return := 146/9,
    new_prob_otm := 70, improvement_score := 593/9 }

/-! ## List lemmas for the embedded pipelines -/

theorem mem_insertSorted {le : α → α → Bool} {x a : α} {l : List α} :
    a ∈ insertSorted le x l ↔ a = x ∨ a ∈ l := by
  induction l with
  | nil => simp [insertSorted]
  | cons y ys ih =>
    by_cases h : le x y = true
    · simp [insertSorted, h]
    · simp only [insertSorted, if_neg h, List.mem_cons, ih]
      tauto

theorem mem_sortValues {le : α → α → Bool} {a : α} {l : List α} :
    a ∈ sortValues le l ↔ a ∈ l := by
  induction l with
  | nil => simp [sortValues]
  | cons y ys ih => simp [sortValues, mem_insertSorted, ih]

theorem length_insertSorted (le : α → α → Bool) (x : α) (l : List α) :
    (insertSorted le x l).length = l.length + 1 := by
  induction l with
  | nil => rfl
  | cons y ys ih =>
    by_cases h : le x y = true
    · simp [insertSorted, h]
    · simp [insertSorted, h, ih]

theorem length_sortValues (le : α → α → Bool) (l : List α) :
    (sortValues le l).length = l.length := by
  induction l with
  | nil => rfl
  | cons y ys ih => simp [sortValues, length_insertSorted, ih]

theorem length_filter_le_of_imp {l : List α} {p q : α → Bool}
    (h : ∀ a ∈ l, p a = true → q a = true) :
    (l.filter p).length ≤ (l.filter q).length := by
  induction l with
  | nil => simp
  | cons x xs ih =>
    have ihx := ih (fun a ha => h a (List.mem_cons_of_mem x ha))
    by_cases hp : p x = true
    · have hq := h x (List.mem_cons_self x xs) hp
      simp [List.filter_cons, hp, hq]
      exact ihx
    · simp only [List.filter_cons, Bool.not_eq_true] at hp ⊢
      rw [hp]
      by_cases hq : q x = true
      · simp only [hq, if_true, if_false, List.length_cons]
        exact Nat.le_succ_of_le ihx
      · simp only [Bool.not_eq_true] at hq
        rw [hq]
        simpa using ihx

theorem pyInt_one_le {q : ℚ} : 1 ≤ pyInt q ↔ 1 ≤ q := by
  unfold pyInt
  by_cases h : 0 ≤ q
  · rw [if_pos h, Int.le_floor]
    norm_num
  · rw [if_neg h]
    push_neg at h
    constructor
    · intro h1
      exfalso
      have : ⌊-q⌋ ≤ -1 := by omega
      have h2 : (0:ℚ) ≤ -q := by linarith
      have := Int.floor_nonneg.mpr h2
      omega
    · intro h1
      exfalso
      linarith

/-! ## Structural lemmas for the CSP pipeline -/

theorem mem_csp_filtered_fst {p : CSPParams} {rows : List OptionRow}
    {t : OptionRow × ℚ × String} (ht : t ∈ csp_filtered p rows) : t.1 ∈ rows := by
  unfold csp_filtered at ht
  have ht' := List.mem_of_mem_filter ht
  have hmap : t ∈ (rows.filter (fun r => r.option_type == "put")).map
      (fun r => (r, get_price r.bid r.lastPrice r.ask)) := by
    cases hqt : p.quality_tickers with
    | none => simpa [hqt] using ht'
    | some qt =>
      rw [hqt] at ht'
      exact List.mem_of_mem_filter ht'
  obtain ⟨r, hr, hrt⟩ := List.mem_map.mp hmap
  rw [← hrt]
  exact List.mem_of_mem_filter hr

theorem mem_csp_metrics {p : CSPParams} {l : List (OptionRow × ℚ × String)}
    {x : CSPRow} (hx : x ∈ csp_metrics p l) : ∃ t ∈ l, x = csp_metrics_row t := by
  unfold csp_metrics at hx
  cases hpo : p.min_prob_otm <;> cases hnd : p.min_delta <;> cases hxd : p.max_delta <;>
    simp only [hpo, hnd, hxd] at hx <;>
    repeat replace hx := List.mem_of_mem_filter hx
  all_goals (obtain ⟨t, htl, hteq⟩ := List.mem_map.mp hx; exact ⟨t, htl, hteq.symm⟩)

theorem mem_csp_cash_stage_some {cash : ℚ} {mc : Option ℚ} {l : List CSPRow}
    {r : CSPRow} (hr : r ∈ csp_cash_stage (some cash) mc l) :
    ∃ x ∈ l, r = csp_cash_row (mc.getD cash) x ∧
      (1:ℤ) ≤ r.max_affordable_contracts.getD 0 := by
  unfold csp_cash_stage at hr
  cases mc with
  | none =>
    obtain ⟨hmem, hcond⟩ := List.mem_filter.mp hr
    obtain ⟨x, hx, hxe⟩ := List.mem_map.mp hmem
    exact ⟨x, hx, hxe.symm, of_decide_eq_true hcond⟩
  | some m =>
    obtain ⟨hmem, hcond⟩ := List.mem_filter.mp hr
    obtain ⟨x, hx, hxe⟩ := List.mem_map.mp hmem
    exact ⟨x, hx, hxe.symm, of_decide_eq_true hcond⟩

theorem mem_csp_rank {l : List CSPRow} {r : CSPRow} :
    r ∈ csp_rank l ↔ ∃ x ∈ l, r = csp_score_row x := by
  unfold csp_rank
  rw [mem_sortValues, List.mem_map]
  constructor
  · rintro ⟨x, hx, rfl⟩
    exact ⟨x, hx, rfl⟩
  · rintro ⟨x, hx, rfl⟩
    exact ⟨x, hx, rfl⟩

theorem length_csp_rank (l : List CSPRow) : (csp_rank l).length = l.length := by
  unfold csp_rank
  rw [length_sortValues, List.length_map]

theorem length_csp_cash_stage_mono {l : List CSPRow} {mc : Option ℚ} {c1 c2 : ℚ}
    (hpos : ∀ x ∈ l, 0 < x.row.strike) (h12 : c1 ≤ c2) :
    (csp_cash_stage (some c1) mc l).length ≤ (csp_cash_stage (some c2) mc l).length := by
  cases mc with
  | some m => exact le_of_eq rfl
  | none =>
    show ((l.map (csp_cash_row c1)).filter
        (fun r => decide (1 ≤ r.max_affordable_contracts.getD 0))).length ≤
      ((l.map (csp_cash_row c2)).filter
        (fun r => decide (1 ≤ r.max_affordable_contracts.getD 0))).length
    rw [List.filter_map, List.filter_map, List.length_map, List.length_map]
    apply length_filter_le_of_imp
    intro a ha hcond
    have hstrike : 0 < a.row.strike := hpos a ha
    simp only [Function.comp] at hcond ⊢
    rw [decide_eq_true_eq] at hcond ⊢
    have h1 : (1:ℤ) ≤ pyInt (c1 / (a.row.strike * 100)) := hcond
    show (1:ℤ) ≤ pyInt (c2 / (a.row.strike * 100))
    rw [pyInt_one_le] at h1 ⊢
    have hden : (0:ℚ) < a.row.strike * 100 := by positivity
    calc (1:ℚ) ≤ c1 / (a.row.strike * 100) := h1
      _ ≤ c2 / (a.row.strike * 100) := div_le_div_of_nonneg_right h12 hden.le

/-- Evaluation of the scenario-4 pipeline run: the $200-strike put with
`available_cash=$15,000` and `max_cash_per_position=$20,000` survives,
sized at one contract. -/
theorem csp_scenario4_eval :
    analyze_cash_secured_puts scenario4_params [row200] = [row200_out] := by
  norm_num [analyze_cash_secured_puts, csp_rank, csp_score_row, csp_cash_stage,
    csp_cash_row, csp_metrics, csp_metrics_row, csp_filtered, get_price, notnaPos,
    pyInt, calculate_annualized_return, calculate_monthly_return, sortValues,
    insertSorted, scenario4_params, row200, row200_out]

/-! ## Claim theorems -/

/-- C1, counterexample: the claim says that with strike $200,
`available_cash=$15,000` and `max_cash_per_position=$20,000` the
opportunity affords zero contracts and is dropped.  The code never caps
the per-position budget by the total deployable cash: the row survives
with `max_affordable_contracts = 1` (`int(20000 / 20000)`). -/
theorem csp_scenario4_not_dropped :
    (analyze_cash_secured_puts scenario4_params [row200]).map
      (fun r => r.max_affordable_contracts) = [some 1] := by
  rw [csp_scenario4_eval]
  rfl

/-- C1, amended: when `available_cash` is supplied, every surviving row
has `max_affordable_contracts = int(budget_per_position / (strike×100))`
where `budget_per_position` is `max_cash_per_position` when supplied and
`available_cash` otherwise — with no further cap by the total deployable
cash — and every surviving row affords at least one contract (rows
affording zero are dropped). -/
theorem csp_affordable_contracts_formula
    (p : CSPParams) (rows : List OptionRow) (cash : ℚ) (r : CSPRow)
    (hp : p.available_cash = some cash)
    (hr : r ∈ analyze_cash_secured_puts p rows) :
    r.max_affordable_contracts =
      some (pyInt (p.max_cash_per_position.getD cash / (r.row.strike * 100))) ∧
    1 ≤ pyInt (p.max_cash_per_position.getD cash / (r.row.strike * 100)) := by
  unfold analyze_cash_secured_puts at hr
  rw [hp] at hr
  obtain ⟨y, hy, rfl⟩ := mem_csp_rank.mp hr
  obtain ⟨x, _, hyx, hge⟩ := mem_csp_cash_stage_some hy
  subst hyx
  exact ⟨rfl, hge⟩

/-- C1, witness: the scenario-4 survivor is sized exactly by the
per-position budget. -/
theorem csp_affordable_contracts_formula_witness :
    row200_out.max_affordable_contracts =
      some (pyInt (scenario4_params.max_cash_per_position.getD 15000 /
        (row200_out.row.strike * 100))) ∧
    1 ≤ pyInt (scenario4_params.max_cash_per_position.getD 15000 /
        (row200_out.row.strike * 100)) :=
  csp_affordable_contracts_formula scenario4_params [row200] 15000 row200_out rfl
    (by rw [csp_scenario4_eval]; exact List.mem_singleton.mpr rfl)

/-- C2: the `capital_required` column of a CSP opportunity is the
per-share strike, not the position-aggregate `strike × 100` that the
source's own comment (`Capital required = strike price * 100`) and the
specification state: on the spec's scenario-1 option (strike $95) the
pipeline reports `capital_required = 95`, not `9500`. -/
theorem csp_capital_required_is_per_share :
    (analyze_cash_secured_puts {} [row95]).map (fun r => r.capital_required) = [95] ∧
    (95 : ℚ) ≠ 95 * 100 := by
  constructor
  · norm_num [analyze_cash_secured_puts, csp_rank, csp_score_row, csp_cash_stage,
      csp_cash_row, csp_metrics, csp_metrics_row, csp_filtered, get_price, notnaPos,
      pyInt, calculate_annualized_return, calculate_monthly_return, sortValues,
      insertSorted, row95]
  · norm_num

/-- C8: the capital filter is monotonic — on a table of positive-strike
quotes (the data-model invariant), with every other parameter and
`max_cash_per_position` fixed, raising `available_cash` never shrinks
the set of surviving opportunities. -/
theorem csp_capital_filter_monotone
    (p : CSPParams) (rows : List OptionRow) (mc : Option ℚ) (c1 c2 : ℚ)
    (hpos : ∀ r ∈ rows, 0 < r.strike) (h12 : c1 ≤ c2) :
    (analyze_cash_secured_puts
      { p with available_cash := some c1, max_cash_per_position := mc } rows).length ≤
    (analyze_cash_secured_puts
      { p with available_cash := some c2, max_cash_per_position := mc } rows).length := by
  unfold analyze_cash_secured_puts
  rw [length_csp_rank, length_csp_rank]
  refine length_csp_cash_stage_mono (fun x hx => ?_) h12
  obtain ⟨t, htl, rfl⟩ := mem_csp_metrics hx
  exact hpos t.1 (mem_csp_filtered_fst htl)

/-- C8, witness: with the scenario-1 table, raising the available cash
from $9,000 to $10,000 cannot shrink the surviving set. -/
theorem csp_capital_filter_monotone_witness :
    (analyze_cash_secured_puts
      { ({} : CSPParams) with available_cash := some 9000, max_cash_per_position := none }
      [row95]).length ≤
    (analyze_cash_secured_puts
      { ({} : CSPParams) with available_cash := some 10000, max_cash_per_position := none }
      [row95]).length :=
  csp_capital_filter_monotone {} [row95] none 9000 10000
    (by
      intro r hr
      rw [List.mem_singleton] at hr
      subst hr
      norm_num [row95])
    (by norm_num)

theorem cc_price_fst (r : OptionRow) : (cc_price r).1 = r := by
  unfold cc_price
  split <;> rfl

theorem mem_analyze_covered_calls_row {p : CCParams} {rows : List OptionRow}
    {r : CCRow} (hr : r ∈ analyze_covered_calls p rows) :
    r.row ∈ cc_band (rows.filter (fun x => x.option_type == "call")) := by
  unfold analyze_covered_calls at hr
  rw [mem_sortValues] at hr
  obtain ⟨y, hy, rfl⟩ := List.mem_map.mp hr
  cases hnd : p.min_delta <;> cases hxd : p.max_delta <;>
    simp only [hnd, hxd] at hy <;>
    repeat replace hy := List.mem_of_mem_filter hy
  all_goals (
    obtain ⟨t, ht, rfl⟩ := List.mem_map.mp hy;
    replace ht := List.mem_of_mem_filter ht;
    obtain ⟨x, hx, rfl⟩ := List.mem_map.mp ht;
    show (cc_price x).1 ∈ _;
    rw [cc_price_fst];
    exact hx)

theorem mem_cc_band_bounds {calls : List OptionRow} {x : OptionRow}
    (hx : x ∈ cc_band calls) (hpos : 0 < cc_first_spot calls) :
    cc_first_spot calls * 0.95 ≤ x.strike ∧ x.strike ≤ cc_first_spot calls * 1.5 := by
  unfold cc_band at hx
  rw [if_pos hpos] at hx
  obtain ⟨-, hcond⟩ := List.mem_filter.mp hx
  rw [Bool.and_eq_true, decide_eq_true_eq, decide_eq_true_eq] at hcond
  exact hcond

/-- Evaluation of the two-ticker covered-call table: BBB's $200 strike is
rejected against AAA's $100 spot (though it is only 40% of BBB's own
$500 spot), and only the AAA row survives. -/
theorem cc_multi_ticker_eval :
    analyze_covered_calls {} [rowA, rowB] = [rowA_out] := by
  norm_num [analyze_covered_calls, cc_band, cc_first_spot, cc_price, cc_metrics_row,
    cc_final_row, notnaPos, calculate_annualized_return, calculate_monthly_return,
    sortValues, insertSorted, rowA, rowB, rowA_out]

/-- C9: the covered-call analyzer silently keeps only strikes between
95% and 150% of a spot price, and that spot is read from the first row
of the call-filtered table and applied to every row — on a multi-ticker
table every surviving strike is banded against the first row's ticker's
spot. -/
theorem cc_band_uses_first_row_spot
    (p : CCParams) (rows : List OptionRow) (r : CCRow)
    (hr : r ∈ analyze_covered_calls p rows)
    (hpos : 0 < cc_first_spot (rows.filter (fun x => x.option_type == "call"))) :
    cc_first_spot (rows.filter (fun x => x.option_type == "call")) * 0.95 ≤ r.row.strike ∧
    r.row.strike ≤ cc_first_spot (rows.filter (fun x => x.option_type == "call")) * 1.5 :=
  mem_cc_band_bounds (mem_analyze_covered_calls_row hr) hpos

/-- C9, witness: the surviving AAA row of the two-ticker table is banded
against the first row's $100 spot. -/
theorem cc_band_uses_first_row_spot_witness :
    cc_first_spot ([rowA, rowB].filter (fun x => x.option_type == "call")) * 0.95 ≤
      rowA_out.row.strike ∧
    rowA_out.row.strike ≤
      cc_first_spot ([rowA, rowB].filter (fun x => x.option_type == "call")) * 1.5 :=
  cc_band_uses_first_row_spot {} [rowA, rowB] rowA_out
    (by rw [cc_multi_ticker_eval]; exact List.mem_singleton.mpr rfl)
    (by norm_num [cc_first_spot, rowA, rowB])

/-- C5: the decision procedure is evaluated in strict priority order — a
position classified ITM with fewer than 7 days remaining gets the
assignment-risk branch (`CLOSE_EARLY`, urgency 5) even when it is also
at or above the aggressive profit target (75% under the default
settings), whose branch would only report urgency 4. -/
theorem itm_assignment_branch_priority
    (settings : PositionAnalysisSettings) (pnl_pct prob_otm prob_change tech_change : ℚ)
    (days_remaining : ℤ) (hdays : days_remaining < 7)
    (hpnl : settings.profit_taking_rules.aggressive_target_pct ≤ pnl_pct) :
    determine_action settings pnl_pct prob_otm prob_change tech_change "ITM" days_remaining =
      ("CLOSE_EARLY", 5, DecisionBranch.itm_assignment) := by
  unfold determine_action
  rw [if_pos ⟨rfl, hdays⟩]

/-- C5, witness: a position at 80% profit, ITM with 5 days remaining,
under the default settings. -/
theorem itm_assignment_branch_priority_witness :
    determine_action {} 80 50 0 0 "ITM" 5 =
      ("CLOSE_EARLY", 5, DecisionBranch.itm_assignment) :=
  itm_assignment_branch_priority {} 80 50 0 0 5 (by norm_num) (by norm_num)

theorem determine_action_branch_ne_itm
    (settings : PositionAnalysisSettings) (pnl_pct prob_otm prob_change tech_change : ℚ)
    (m : String) (days_remaining : ℤ) (hm : m ≠ "ITM") :
    (determine_action settings pnl_pct prob_otm prob_change tech_change m
      days_remaining).2.2 ≠ DecisionBranch.itm_assignment := by
  unfold determine_action
  rw [if_neg (fun h => hm h.1)]
  split_ifs <;> simp

/-- C10: a put in the money by less than 2% of the strike is classified
`ATM` (not `ITM`) by the 2% near-the-money band, so the ITM-assignment
`CLOSE_EARLY`/urgency-5 branch cannot fire for it even with fewer than
7 days remaining. -/
theorem near_money_put_classified_atm
    (strike spot : ℚ) (settings : PositionAnalysisSettings)
    (pnl_pct prob_otm prob_change tech_change : ℚ) (days_remaining : ℤ)
    (hstrike : 0 < strike) (hspot : spot < strike)
    (hband : (strike - spot) / strike * 100 < 2) (hdays : days_remaining < 7) :
    determine_moneyness "put" strike spot = "ATM" ∧
    (determine_action settings pnl_pct prob_otm prob_change tech_change
      (determine_moneyness "put" strike spot) days_remaining).2.2 ≠
      DecisionBranch.itm_assignment := by
  have habs : |spot - strike| = strike - spot := by
    rw [abs_sub_comm]
    exact abs_of_pos (by linarith)
  have hm : determine_moneyness "put" strike spot = "ATM" := by
    unfold determine_moneyness
    rw [habs, if_pos hband]
  refine ⟨hm, ?_⟩
  rw [hm]
  exact determine_action_branch_ne_itm settings pnl_pct prob_otm prob_change tech_change
    "ATM" days_remaining (by decide)

/-- C10, witness: a put at strike $100 with spot $99 (1% in the money),
5 days out. -/
theorem near_money_put_classified_atm_witness :
    determine_moneyness "put" 100 99 = "ATM" ∧
    (determine_action {} 0 50 0 0 (determine_moneyness "put" 100 99) 5).2.2 ≠
      DecisionBranch.itm_assignment :=
  near_money_put_classified_atm 100 99 {} 0 50 0 0 5
    (by norm_num) (by norm_num) (by norm_num) (by norm_num)

/-- C6, counterexample: with ticker data present and a known base
probability of exactly 0, Python's `if black_scholes_prob:` treats the
base as absent and the enhanced probability is `None` — not the claim's
`clamp(0 + adjustment)`, which here would be 15 (all sub-scores 100). -/
theorem enhanced_prob_zero_base_dropped :
    (calculate_enhanced_probability true 100 100 100 100 (some 0)).enhanced_prob_otm = none ∧
    max 0 (min 100 ((0:ℚ) + adjustment_pct (composite_score 100 100 100 100))) = 15 := by
  constructor
  · norm_num [calculate_enhanced_probability, pyTruthy]
  · norm_num [adjustment_pct, composite_score]

/-- C6, amended: for every option analyzed with ticker data and a known
nonzero base closed-form probability, the enhanced probability is
`base + ((composite − 50) / 50) × 15` clamped to `[0, 100]`, with
`composite = 0.35·technical + 0.25·fundamental + 0.20·sentiment +
0.20·event_risk`; a base probability of exactly zero (or an absent one)
yields no enhanced probability. -/
theorem enhanced_prob_formula
    (technical fundamental sentiment event_risk b : ℚ) (hb : b ≠ 0) :
    (calculate_enhanced_probability true technical fundamental sentiment event_risk
      (some b)).enhanced_prob_otm =
    some (max 0 (min 100 (b + adjustment_pct
      (composite_score technical fundamental sentiment event_risk)))) := by
  unfold calculate_enhanced_probability
  simp [pyTruthy, hb]

/-- C6, witness: all sub-scores 60 and base probability 70. -/
theorem enhanced_prob_formula_witness :
    (calculate_enhanced_probability true 60 60 60 60 (some 70)).enhanced_prob_otm =
    some (max 0 (min 100 (70 + adjustment_pct (composite_score 60 60 60 60)))) :=
  enhanced_prob_formula 60 60 60 60 70 (by norm_num)

/-- C7: every candidate the roll search returns clears the
minimum-credit floor it was invoked with (`net_credit =
new_premium − estimated_close_cost ≥ min_credit`, the floor obtained
from `resolve_min_credit`), and for a put position every candidate's new
strike is at most 5% above the current strike. -/
theorem roll_candidates_meet_floor_and_band
    (option_type : String) (current_strike : ℚ) (current_expiration : String)
    (close_cost min_credit : ℚ) (max_candidates : ℕ) (future_chains : List RollChain)
    (c : RollCandidate)
    (hc : c ∈ find_roll_opportunities option_type current_strike current_expiration
      close_cost min_credit max_candidates future_chains) :
    min_credit ≤ c.net_credit ∧
    (option_type = "put" → c.new_strike ≤ current_strike * 1.05) := by
  unfold find_roll_opportunities at hc
  have hc' := mem_sortValues.mp (List.mem_of_mem_take hc)
  rw [List.mem_flatMap] at hc'
  obtain ⟨ch, hch, hcc⟩ := hc'
  rw [List.mem_filterMap] at hcc
  obtain ⟨o, ho, hoe⟩ := hcc
  unfold evaluate_roll_option at hoe
  split_ifs at hoe with h1 h2 h3 h4
  obtain rfl := Option.some.inj hoe
  constructor
  · exact not_lt.mp h4
  · intro hput
    have hb : ¬ (current_strike * 1.05 < o.strike) := by
      intro hlt
      exact h1 ⟨by simp [hput], hlt⟩
    exact not_lt.mp hb

/-- Evaluation of the single-chain roll search: the $95 put at 45 DTE
yields one candidate with net credit $1.00. -/
theorem chain1_eval :
    find_roll_opportunities "put" 100 "2025-10-17" 1 (1/4) 5 [chain1] = [chain1_cand] := by
  norm_num [find_roll_opportunities, evaluate_roll_option, roll_new_premium,
    roll_new_annual_return, mk_roll_candidate, classify_roll_type,
    calculate_improvement_score, roll_type_score, sortValues, insertSorted,
    chain1, chain1_cand, List.filterMap,
    (show ("roll_out" : String) ≠ "roll_out_and_down" by decide), min_def]

/-- C7, witness: the candidate from `chain1` clears the $0.25 floor and
the put strike band. -/
theorem roll_candidates_meet_floor_and_band_witness :
    (1/4 : ℚ) ≤ chain1_cand.net_credit ∧ chain1_cand.new_strike ≤ 100 * 1.05 := by
  have h := roll_candidates_meet_floor_and_band "put" 100 "2025-10-17" 1 (1/4) 5 [chain1]
    chain1_cand (by rw [chain1_eval]; exact List.mem_singleton.mpr rfl)
  exact ⟨h.1, h.2 rfl⟩

/-- C3: a call to the probability model with implied volatility below
0.10 and positive days computes the probability with the fixed 0.45
volatility substituted, whatever the spot, strike and option type. -/
theorem prob_otm_low_iv_uses_fallback
    (current_price strike implied_vol : ℝ) (days : ℤ) (option_type : String)
    (hiv : implied_vol < 0.10) (hdays : 0 < days) :
    calculate_probability_otm current_price strike implied_vol days option_type =
    calculate_probability_otm current_price strike 0.45 days option_type := by
  have heff : effective_iv implied_vol = effective_iv 0.45 := by
    unfold effective_iv
    rw [if_pos hiv, ite_self]
  unfold calculate_probability_otm
  rw [heff]

/-- C3, witness: σ = 0.05 is computed as σ = 0.45 (spot $100, strike
$95, 30 days, put). -/
theorem prob_otm_low_iv_uses_fallback_witness :
    calculate_probability_otm 100 95 0.05 30 "put" =
    calculate_probability_otm 100 95 0.45 30 "put" :=
  prob_otm_low_iv_uses_fallback 100 95 0.05 30 "put" (by norm_num) (by norm_num)

theorem normalCDF_nonneg (x : ℝ) : 0 ≤ normalCDF x := by
  unfold normalCDF
  apply div_nonneg
  · exact MeasureTheory.setIntegral_nonneg measurableSet_Iic
      (fun t _ => (Real.exp_pos _).le)
  · exact Real.sqrt_nonneg _

theorem gaussian_integrand_eq :
    (fun t : ℝ => Real.exp (-t ^ 2 / 2)) = fun t : ℝ => Real.exp (-(1/2) * t ^ 2) := by
  funext t
  congr 1
  ring

theorem normalCDF_le_one (x : ℝ) : normalCDF x ≤ 1 := by
  unfold normalCDF
  rw [div_le_one (by positivity : (0:ℝ) < Real.sqrt (2 * Real.pi))]
  have hint : MeasureTheory.Integrable (fun t : ℝ => Real.exp (-t ^ 2 / 2)) := by
    rw [gaussian_integrand_eq]
    exact integrable_exp_neg_mul_sq (by norm_num)
  calc (∫ t in Set.Iic x, Real.exp (-t ^ 2 / 2))
      ≤ ∫ t : ℝ, Real.exp (-t ^ 2 / 2) :=
        MeasureTheory.setIntegral_le_integral hint
          (MeasureTheory.ae_of_all _ (fun t => (Real.exp_pos _).le))
    _ = Real.sqrt (2 * Real.pi) := by
        rw [gaussian_integrand_eq, integral_gaussian,
          show Real.pi / (1/2) = 2 * Real.pi by ring]

/-- C4: the probability model is total — it returns 0 when `days ≤ 0` or
on its one exception path (`strike = 0`, the `ZeroDivisionError` caught
by the `try/except`) — and on every valid input (positive spot and
strike, σ ≥ 0.10, positive days) the result lies in `[0, 100]`. -/
theorem prob_otm_total_and_in_range
    (current_price strike implied_vol : ℝ) (days : ℤ) (option_type : String) :
    (days ≤ 0 ∨ strike = 0 →
      calculate_probability_otm current_price strike implied_vol days option_type = 0) ∧
    (0 < current_price → 0 < strike → 0.10 ≤ implied_vol → 0 < days →
      0 ≤ calculate_probability_otm current_price strike implied_vol days option_type ∧
      calculate_probability_otm current_price strike implied_vol days option_type ≤ 100) := by
  constructor
  · rintro (hd | hs)
    · unfold calculate_probability_otm
      rw [if_pos hd]
    · unfold calculate_probability_otm
      by_cases hd : days ≤ 0
      · rw [if_pos hd]
      · rw [if_neg hd, if_pos hs]
  · intro _ hst _ hd
    have hbound : ∀ y : ℝ, 0 ≤ normalCDF y * 100 ∧ normalCDF y * 100 ≤ 100 := fun y =>
      ⟨mul_nonneg (normalCDF_nonneg y) (by norm_num),
        by nlinarith [normalCDF_le_one y]⟩
    have hrep : ∃ y : ℝ,
        calculate_probability_otm current_price strike implied_vol days option_type =
          normalCDF y * 100 := by
      unfold calculate_probability_otm
      rw [if_neg (not_le.mpr hd), if_neg (ne_of_gt hst)]
      by_cases hc : option_type.toLower = "call"
      · exact ⟨_, by rw [if_pos hc]⟩
      · exact ⟨_, by rw [if_neg hc]⟩
    obtain ⟨y, hy⟩ := hrep
    rw [hy]
    exact hbound y

/-- C4, witness: a valid put (spot $100, strike $95, σ = 0.2, 30 days)
has its probability in `[0, 100]`, and an expired quote returns 0. -/
theorem prob_otm_total_and_in_range_witness :
    calculate_probability_otm 100 95 0.2 0 "put" = 0 ∧
    (0 ≤ calculate_probability_otm 100 95 0.2 30 "put" ∧
      calculate_probability_otm 100 95 0.2 30 "put" ≤ 100) :=
  ⟨(prob_otm_total_and_in_range 100 95 0.2 0 "put").1 (Or.inl le_rfl),
   (prob_otm_total_and_in_range 100 95 0.2 30 "put").2
     (by norm_num) (by norm_num) (by norm_num) (by norm_num)⟩

end StockAnalysis
